import Mathlib

/-!
# Verification of the nodemationautomation workflow core

A shallow embedding, in Lean 4, of the core of the `nodemationautomation`
repository: the workflow graph state manager (`src/workflow/state.ts`),
the two-phase workflow validator (`src/workflow/validator.ts`), the
generation loop's validation-error classifier and finalize decision
(`src/agent/workflow-builder.ts`), and the tool surface
(`src/tools/index.ts`).  TypeScript `Map`s and plain objects become
insertion-ordered association lists, JS numbers used as counters and
indices become `Nat`/`Int`, thrown exceptions become `Except` results
paired with the (unchanged) state, and `async` externals become explicit
outcome parameters.
-/

namespace Nodemation

/-- A JSON-like value, used for node `parameters` (TS `Record<string, unknown>`)
and for untyped tool arguments.  Numeric values are modelled as integers. -/
inductive JValue where
  | null : JValue
  | bool (b : Bool) : JValue
  | num (n : Int) : JValue
  | str (s : String) : JValue
  | arr (xs : List JValue) : JValue
  | obj (fields : List (String × JValue)) : JValue

/-- Field lookup on a JSON object; `none` on non-objects or missing keys. -/
def JValue.getField (v : JValue) (key : String) : Option JValue :=
  match v with
  | .obj fields => (fields.find? (fun p => p.1 == key)).map (fun p => p.2)
  | _ => none

/-- `credentials` entry value: `{ id, name }` (from `src/workflow/types.ts`). -/
structure N8nCredentialReference where
  id : String
  name : String

/-- The closed set of connection types (from `src/workflow/types.ts`). -/
inductive N8nConnectionType where
  | main
  | ai_tool
  | ai_languageModel
  | ai_memory
deriving DecidableEq

/-- A workflow node in the serialized (wire) format (from `src/workflow/types.ts`).
Position coordinates are integers produced by the grid layout. -/
structure N8nNode where
  id : String
  name : String
  type : String
  typeVersion : Int
  position : Int × Int
  parameters : List (String × JValue)
  credentials : Option (List (String × N8nCredentialReference))

/-- A serialized connection target `{node, type, index}`. -/
structure N8nConnectionTarget where
  node : String
  type : N8nConnectionType
  index : Int
deriving DecidableEq

/-- The per-source connection record `{ main: ConnectionTarget[][] }`. -/
structure N8nNodeConnections where
  main : List (List N8nConnectionTarget)

/-- Workflow settings `{ executionOrder: 'v1' }`; the field is kept as a string
so the validator's `z.literal('v1')` check is a real check. -/
structure N8nWorkflowSettings where
  executionOrder : String

/-- The serialized workflow wire format (from `src/workflow/types.ts`).
`connections` is an insertion-ordered association list keyed by source
node name, as a JS object with string keys. -/
structure N8nWorkflow where
  name : String
  nodes : List N8nNode
  connections : List (String × N8nNodeConnections)
  settings : N8nWorkflowSettings

/-- Input for `addNode` (from `src/workflow/types.ts`). -/
structure AddNodeInput where
  type : String
  typeVersion : Int
  name : String
  parameters : Option (List (String × JValue))
  credentials : Option (List (String × N8nCredentialReference))

/-- Input for `connectNodes` (from `src/workflow/types.ts`); optional fields
default to `0` / `'main'` inside `connectNodes`. -/
structure ConnectNodesInput where
  sourceNode : String
  targetNode : String
  sourceOutput : Option Int
  targetInput : Option Int
  connectionType : Option N8nConnectionType

/-- Internal connection record of the state manager (from `src/workflow/state.ts`). -/
structure InternalConnection where
  target : String
  sourceOutput : Int
  targetInput : Int
  connectionType : N8nConnectionType
deriving DecidableEq

/-- The state of `WorkflowStateManager`: two insertion-ordered maps (JS `Map`)
and the monotonic ID counter. -/
structure WState where
  nodes : List (String × N8nNode)
  connections : List (String × List InternalConnection)
  nodeCounter : Nat

/-- A freshly constructed (or `reset()`) state manager. -/
def initState : WState := { nodes := [], connections := [], nodeCounter := 0 }

/-- `reset()` clears nodes, connections and the ID counter. -/
def resetState (_st : WState) : WState := initState

/-- JS `Map.has` on an insertion-ordered association list. -/
def assocHas {α : Type} (l : List (String × α)) (key : String) : Bool :=
  l.any (fun p => p.1 == key)

/-- JS `Map.set`: replace in place if the key is present, else append. -/
def assocSet {α : Type} (l : List (String × α)) (key : String) (v : α) :
    List (String × α) :=
  if assocHas l key then l.map (fun p => if p.1 == key then (key, v) else p)
  else l ++ [(key, v)]

/-- JS `Map.get` returning an `Option`. -/
def assocGet {α : Type} (l : List (String × α)) (key : String) : Option α :=
  (l.find? (fun p => p.1 == key)).map (fun p => p.2)

/-- The deterministic grid layout of `addNode`: the node added while the
manager currently holds `n` nodes gets
`(100 + (n % 4) * 250, 100 + floor(n / 4) * 150)`. -/
def gridPos (n : Nat) : Int × Int :=
  (100 + ((n % 4 : Nat) : Int) * 250, 100 + ((n / 4 : Nat) : Int) * 150)

/-- `WorkflowStateManager.addNode`.  The thrown duplicate-name error becomes
`Except.error` paired with the unchanged state (the check precedes every
mutation, including the counter increment). -/
def addNodeE (input : AddNodeInput) (st : WState) :
    Except String N8nNode × WState :=
  if assocHas st.nodes input.name then
    (.error ("Node with name \"" ++ input.name ++ "\" already exists"), st)
  else
    let counter := st.nodeCounter + 1
    let id := "node_" ++ toString counter
    let nodeIndex := st.nodes.length
    let node : N8nNode :=
      { id := id
        name := input.name
        type := input.type
        typeVersion := input.typeVersion
        position := gridPos nodeIndex
        parameters := input.parameters.getD []
        credentials := input.credentials }
    (.ok node,
      { st with nodes := st.nodes ++ [(input.name, node)], nodeCounter := counter })

/-- `WorkflowStateManager.removeNode`: returns `false` (unchanged state) when
the name is absent; otherwise deletes the node, deletes the node's own
connection entry, prunes it from every other source's edge list and drops
sources whose edge list became empty. -/
def removeNode (name : String) (st : WState) : Bool × WState :=
  if assocHas st.nodes name then
    let nodes' := st.nodes.filter (fun p => p.1 != name)
    let conns' := (st.connections.filter (fun p => p.1 != name)).filterMap
      (fun p =>
        let filtered := p.2.filter (fun c => c.target != name)
        if filtered.isEmpty then none else some (p.1, filtered))
    (true, { st with nodes := nodes', connections := conns' })
  else (false, st)

/-- `WorkflowStateManager.connectNodes` with thrown errors as `Except.error`
(node-not-found checks precede every mutation; the duplicate-edge check uses
the defaulted output/input indices, matching `input.sourceOutput || 0`). -/
def connectNodesE (input : ConnectNodesInput) (st : WState) :
    Except String Unit × WState :=
  if ¬ assocHas st.nodes input.sourceNode then
    (.error ("Source node \"" ++ input.sourceNode ++ "\" not found"), st)
  else if ¬ assocHas st.nodes input.targetNode then
    (.error ("Target node \"" ++ input.targetNode ++ "\" not found"), st)
  else
    let existing := (assocGet st.connections input.sourceNode).getD []
    let so := input.sourceOutput.getD 0
    let ti := input.targetInput.getD 0
    if existing.any (fun c =>
        c.target == input.targetNode && c.sourceOutput == so && c.targetInput == ti) then
      (.error ("Connection from \"" ++ input.sourceNode ++ "\" to \"" ++
        input.targetNode ++ "\" already exists"), st)
    else
      let conn : InternalConnection :=
        { target := input.targetNode
          sourceOutput := so
          targetInput := ti
          connectionType := input.connectionType.getD .main }
      (.ok (),
        { st with connections := assocSet st.connections input.sourceNode (existing ++ [conn]) })

/-- JS object spread `{ ...old, ...patch }`: existing keys keep their slot with
the patched value; new keys are appended in patch order. -/
def mergeParams (oldPs patchPs : List (String × JValue)) : List (String × JValue) :=
  oldPs.map (fun p =>
    match patchPs.find? (fun q => q.1 == p.1) with
    | some q => q
    | none => p) ++
  patchPs.filter (fun q => ¬ oldPs.any (fun p => p.1 == q.1))

/-- `WorkflowStateManager.updateNodeParameters` with the thrown
node-not-found error as `Except.error`. -/
def updateNodeParametersE (name : String) (params : List (String × JValue))
    (st : WState) : Except String Unit × WState :=
  if assocHas st.nodes name then
    (.ok (),
      { st with nodes := st.nodes.map (fun p =>
          if p.1 == name then (p.1, { p.2 with parameters := mergeParams p.2.parameters params })
          else p) })
  else (.error ("Node \"" ++ name ++ "\" not found"), st)

/-- `WorkflowStateManager.getNodes`: node values in insertion order. -/
def getNodes (st : WState) : List N8nNode := st.nodes.map (fun p => p.2)

/-- `WorkflowStateManager.getNode`. -/
def getNode (st : WState) (name : String) : Option N8nNode :=
  assocGet st.nodes name

/-- `Math.max(...outputGroups.keys())` over a source's edge list: the spread of
no arguments gives `-Infinity`, for which `-1` yields the same (empty) slot
range below. -/
def maxOutputIndex (cs : List InternalConnection) : Int :=
  match cs with
  | [] => -1
  | c :: rest => (rest.map (fun x => x.sourceOutput)).foldl max c.sourceOutput

/-- Serialization of one source's edge list into the output-slot array of
`toN8nWorkflow`: slots `0 .. maxOutput` in order, slot `i` holding (in
insertion order) the targets of edges whose `sourceOutput` is `i`. -/
def buildMain (cs : List InternalConnection) : List (List N8nConnectionTarget) :=
  (List.range (maxOutputIndex cs + 1).toNat).map (fun i =>
    (cs.filter (fun c => c.sourceOutput == Int.ofNat i)).map (fun c =>
      { node := c.target, type := c.connectionType, index := c.targetInput }))

/-- `WorkflowStateManager.toN8nWorkflow`. -/
def toN8nWorkflow (name : String) (st : WState) : N8nWorkflow :=
  { name := name
    nodes := getNodes st
    connections := st.connections.map (fun p => (p.1, { main := buildMain p.2 }))
    settings := { executionOrder := "v1" } }

/-! ## Validator (`src/workflow/validator.ts`) -/

/-- Result of `validateWorkflow`. -/
structure ValidationResult where
  valid : Bool
  errors : List String
  warnings : List String

/-- JS `String.prototype.toLowerCase`, character-wise over the underlying
character list (ASCII case folding, which covers every pattern the code
matches against). -/
def strToLower (s : String) : String := ⟨s.data.map Char.toLower⟩

/-- JS `String.prototype.endsWith`, over the underlying character lists. -/
def strEndsWith (s pat : String) : Bool := pat.data.isSuffixOf s.data

/-- JS `String.prototype.startsWith`, over the underlying character lists. -/
def strStartsWith (s pat : String) : Bool := pat.data.isPrefixOf s.data

/-- The two recognized node-type namespace regex alternatives
(`/^(n8n-nodes-base\.|@n8n\/n8n-nodes-langchain\.)/`). -/
def typeHasKnownNamespace (t : String) : Bool :=
  strStartsWith t "n8n-nodes-base." || strStartsWith t "@n8n/n8n-nodes-langchain."

/-- Zod issues for one node of the schema `n8nNodeSchema`, rendered as
`"<path>: <message>"` strings in zod's field order (id, name, type —
min-length then regex —, typeVersion).  Checks that the typed embedding
makes impossible (wrong runtime type of `position`, `parameters`,
`credentials`) are statically precluded and produce no issue. -/
def nodeSchemaIssues (i : Nat) (n : N8nNode) : List String :=
  (if n.id.length ≥ 1 then [] else
    ["nodes." ++ toString i ++ ".id: Node ID is required"]) ++
  (if n.name.length ≥ 1 then [] else
    ["nodes." ++ toString i ++ ".name: Node name is required"]) ++
  (if n.type.length ≥ 1 then [] else
    ["nodes." ++ toString i ++ ".type: String must contain at least 1 character(s)"]) ++
  (if typeHasKnownNamespace n.type then [] else
    ["nodes." ++ toString i ++
      ".type: Node type must start with 'n8n-nodes-base.' or '@n8n/n8n-nodes-langchain.'"]) ++
  (if 0 < n.typeVersion then [] else
    ["nodes." ++ toString i ++ ".typeVersion: typeVersion must be a positive integer"])

/-- Zod issues for one connection target (`n8nConnectionTargetSchema`): the
target node name must be non-empty and `index` non-negative; the `type` enum
is statically precluded by the typed embedding. -/
def targetSchemaIssues (src : String) (i j : Nat) (t : N8nConnectionTarget) :
    List String :=
  (if t.node.length ≥ 1 then [] else
    ["connections." ++ src ++ ".main." ++ toString i ++ "." ++ toString j ++
      ".node: Target node name is required"]) ++
  (if 0 ≤ t.index then [] else
    ["connections." ++ src ++ ".main." ++ toString i ++ "." ++ toString j ++
      ".index: Number must be greater than or equal to 0"])

/-- Attach a running index to a list (for zod's array paths). -/
def withIndices {α : Type} (l : List α) : List (Nat × α) :=
  (List.range l.length).zip l

/-- All issues of `n8nWorkflowSchema.safeParse`, rendered as
`` `${issue.path.join('.')}: ${issue.message}` `` in zod's traversal order:
`name`, `nodes` (min-length, then each node), `connections` (each source's
targets), `settings.executionOrder`. -/
def schemaIssues (w : N8nWorkflow) : List String :=
  (if w.name.length ≥ 1 then [] else ["name: Workflow name is required"]) ++
  (if w.nodes.length ≥ 1 then [] else ["nodes: Workflow must have at least one node"]) ++
  (withIndices w.nodes).flatMap (fun p => nodeSchemaIssues p.1 p.2) ++
  w.connections.flatMap (fun p =>
    (withIndices p.2.main).flatMap (fun q =>
      (withIndices q.2).flatMap (fun r => targetSchemaIssues p.1 q.1 r.1 r.2))) ++
  (if w.settings.executionOrder == "v1" then [] else
    ["settings.executionOrder: Invalid literal value, expected \"v1\""])

/-- Substring containment on lists of characters (JS `String.includes`). -/
def charsContain (pat : List Char) : List Char → Bool
  | [] => pat.isEmpty
  | c :: cs => pat.isPrefixOf (c :: cs) || charsContain pat cs

/-- JS `String.prototype.includes`. -/
def strIncludes (s pat : String) : Bool :=
  charsContain pat.data s.data

/-- The validator's trigger heuristic (`isTriggerNode` in
`src/workflow/validator.ts`): the lowercased type contains `"trigger"` or
`"webhook"`, or ends with `".cron"`. -/
def isTriggerNode (type : String) : Bool :=
  let lowerType := strToLower type
  strIncludes lowerType "trigger" || strIncludes lowerType "webhook" ||
    strEndsWith lowerType ".cron"

/-- Duplicate-name error messages: one per node whose name already occurred
earlier in the list (the `seen` set loop of `validateWorkflow`). -/
def dupNameErrorsAux (seen : List String) : List N8nNode → List String
  | [] => []
  | n :: rest =>
    (if seen.contains n.name then ["Duplicate node name: \"" ++ n.name ++ "\""] else []) ++
      dupNameErrorsAux (n.name :: seen) rest

/-- Duplicate node name errors, guarded by the `Set`-size comparison of the
source (`nodeNames.size !== workflow.nodes.length`). -/
def dupNameErrors (w : N8nWorkflow) : List String :=
  if (w.nodes.map (fun n => n.name)).dedup.length ≠ w.nodes.length then
    dupNameErrorsAux [] w.nodes
  else []

/-- Duplicate node ID error (`nodeIds.size !== workflow.nodes.length`). -/
def dupIdErrors (w : N8nWorkflow) : List String :=
  if (w.nodes.map (fun n => n.id)).dedup.length ≠ w.nodes.length then
    ["Duplicate node IDs detected"]
  else []

/-- Referential-integrity errors: each connection source key and each
connection target must be an existing node name. -/
def connRefErrors (w : N8nWorkflow) : List String :=
  let nodeNames := w.nodes.map (fun n => n.name)
  w.connections.flatMap (fun p =>
    (if nodeNames.contains p.1 then [] else
      ["Connection source \"" ++ p.1 ++ "\" does not exist as a node"]) ++
    p.2.main.flatMap (fun slot => slot.flatMap (fun c =>
      if nodeNames.contains c.node then [] else
        ["Connection target \"" ++ c.node ++ "\" (from \"" ++ p.1 ++
          "\") does not exist as a node"])))

/-- The no-trigger warning text. -/
def noTriggerWarning : String :=
  "Workflow has no trigger node. It can only be executed manually via API."

/-- The orphan warning text for one node. -/
def orphanWarning (name : String) : String :=
  "Node \"" ++ name ++ "\" has no incoming connections"

/-- The no-trigger warning, emitted when no node's type passes the trigger
heuristic. -/
def triggerWarnings (w : N8nWorkflow) : List String :=
  if w.nodes.any (fun n => isTriggerNode n.type) then [] else [noTriggerWarning]

/-- All connection-target names (the `connectedNodes` set). -/
def connectedNodes (w : N8nWorkflow) : List String :=
  w.connections.flatMap (fun p => p.2.main.flatMap (fun slot => slot.map (fun c => c.node)))

/-- Orphan warnings: for workflows with more than one node, each non-trigger
node with no incoming connection. -/
def orphanWarnings (w : N8nWorkflow) : List String :=
  w.nodes.flatMap (fun n =>
    if !(isTriggerNode n.type) && !((connectedNodes w).contains n.name) &&
        decide (1 < w.nodes.length) then
      [orphanWarning n.name]
    else [])

/-- `validateWorkflow` (from `src/workflow/validator.ts`): schema phase
short-circuits with the schema violations and no warnings; otherwise the
semantic phase accumulates errors (duplicate names, duplicate IDs,
referential integrity) and warnings (trigger presence, orphans), and
`valid` is `errors.length === 0`. -/
def validateWorkflow (w : N8nWorkflow) : ValidationResult :=
  let schemaErrs := schemaIssues w
  if schemaErrs.isEmpty then
    let errors := dupNameErrors w ++ dupIdErrors w ++ connRefErrors w
    let warnings := triggerWarnings w ++ orphanWarnings w
    { valid := errors.isEmpty, errors := errors, warnings := warnings }
  else
    { valid := false, errors := schemaErrs, warnings := [] }

/-! ## Generation-loop classifier and finalize decision
(`src/agent/workflow-builder.ts`, `src/config/env.ts`) -/

/-- Result of `analyzeValidationError`. -/
structure ErrorAnalysis where
  recoverable : Bool
  suggestedAction : Option String
deriving DecidableEq

/-- `analyzeValidationError`: string-pattern classification of a validation
error message, checked against the lowercased message in source order;
credential/OAuth/API-key/authentication mentions are non-recoverable and
checked first. -/
def analyzeValidationError (errorMessage : String) : ErrorAnalysis :=
  let lowerMessage := strToLower errorMessage
  if strIncludes lowerMessage "credential" || strIncludes lowerMessage "oauth" ||
      strIncludes lowerMessage "api key" || strIncludes lowerMessage "authentication" then
    { recoverable := false
      suggestedAction := some ("Credentials need to be configured in n8n. " ++
        "Please set up the required credentials in your n8n instance.") }
  else if strIncludes lowerMessage "required" || strIncludes lowerMessage "missing" ||
      strIncludes lowerMessage "parameter" then
    { recoverable := true
      suggestedAction := some "Add the missing required parameter using update_node_parameters." }
  else if strIncludes lowerMessage "invalid" || strIncludes lowerMessage "unknown node" then
    { recoverable := true
      suggestedAction := some ("Check the node type or parameter value. " ++
        "Use list_available_nodes to see valid options.") }
  else if strIncludes lowerMessage "connection" || strIncludes lowerMessage "not found" then
    { recoverable := true
      suggestedAction := some "Check node names and ensure they exist before connecting." }
  else
    { recoverable := true
      suggestedAction := some "Review the error message and fix the issue." }

/-- `buildRetryPrompt`: the corrective user-turn prompt naming the validation
errors and the suggested remedy. -/
def buildRetryPrompt (errorMessage : String) (analysis : ErrorAnalysis) : String :=
  "\nThe workflow validation failed with the following error:\n" ++ errorMessage ++
  "\n\n" ++
  (match analysis.suggestedAction with
   | some a => "Suggested action: " ++ a
   | none => "") ++
  "\n\nPlease analyze the error and fix the workflow. You may need to:\n" ++
  "1. Update node parameters using update_node_parameters\n" ++
  "2. Remove and re-add nodes if the type is wrong\n" ++
  "3. Fix connections between nodes\n\n" ++
  "After making corrections, call get_current_workflow to verify the fix.\n"

/-- The possible outcomes of the generation loop's finalize path once local
validation of the built workflow has failed. -/
inductive FinalizeOutcome where
  /-- Retry: the incremented attempt counter and the injected corrective prompt. -/
  | retry (attempts : Nat) (prompt : String)
  /-- Terminal failure carrying `requiresHumanInput` and `humanInputReason`. -/
  | failure (requiresHumanInput : Bool) (humanInputReason : Option String)
deriving DecidableEq

/-- The invalid-validation branch of `buildWorkflow` (lines 312–345 of
`src/agent/workflow-builder.ts`): joins the errors with newlines, classifies,
increments the attempt counter, retries while the error is recoverable and
the incremented counter is below `maxRetries`, and otherwise fails with
`requiresHumanInput := !analysis.recoverable` and the classifier's suggested
action as the reason. -/
def finalizeOnInvalid (errors : List String) (validationAttempts maxRetries : Nat) :
    FinalizeOutcome :=
  let errorMsg := String.intercalate "\n" errors
  let analysis := analyzeValidationError errorMsg
  let attempts := validationAttempts + 1
  if analysis.recoverable = true ∧ attempts < maxRetries then
    .retry attempts (buildRetryPrompt errorMsg analysis)
  else
    .failure (!analysis.recoverable) analysis.suggestedAction

/-- The default of `MAX_VALIDATION_RETRIES` in `src/config/env.ts`
(`z.coerce.number().int().min(0).max(10).optional().default(3)`). -/
def defaultMaxValidationRetries : Nat := 3

/-! ## Tool surface (`src/tools/index.ts`, `src/tools/n8n-api.ts`)

Each tool validates its arguments against its zod schema, delegates to the
state manager or the n8n client, and converts every delegate error into a
structured `{success:false, message}` result — no exception escapes
`executeTool` / `executeToolAsync`, which the embedding reflects by giving
both a total function type. -/

/-- Tool result payloads (`ToolResult.data`, TS `unknown`). -/
inductive ToolData where
  /-- The freshly added node (`add_node`). -/
  | node (n : N8nNode)
  /-- The current serialized workflow (`get_current_workflow`). -/
  | workflow (w : N8nWorkflow)
  /-- Validation timestamp (`validate_workflow_with_n8n`, success). -/
  | validatedAt (iso : String)
  /-- n8n validation failure details (`validate_workflow_with_n8n`). -/
  | apiFailure (errorType : Option String) (recoverable : Option Bool)
  /-- Created-workflow info (`create_workflow_in_n8n`). -/
  | created (id : String) (name : String) (url : String) (active : Bool)

/-- The uniform `{success, message, data?}` result of every tool. -/
structure ToolResult where
  success : Bool
  message : String
  data : Option ToolData

/-- The typed n8n API error produced by `N8nApiClient.parseError` /
network-failure conversion (`src/tools/n8n-api.ts`). -/
structure N8nApiError where
  statusCode : Int
  message : String
  errorType : String
  recoverable : Bool

/-- Result of `N8nApiClient.validateByCreation`, which catches every internal
error and therefore never throws. -/
structure ApiValidationResult where
  valid : Bool
  error : Option N8nApiError

/-- Response of `N8nApiClient.createWorkflow`. -/
structure CreateWorkflowResponse where
  id : String
  name : String
  active : Bool

/-- The environment of a tool execution: whether `initializeN8nClient` found
credentials, and the outcomes of the (opaque, external) n8n API calls.  A
thrown value from `createWorkflow` is `some msg` when it is an `Error`
instance (whose `.message` the catch block extracts) and `none` for the
thrown plain `N8nApiError` objects, for which `error instanceof Error` is
false and the catch block falls back to `"Unknown error"`. -/
structure ToolEnv where
  n8nConfigured : Bool
  validateOutcome : ApiValidationResult
  createOutcome : Except (Option String) CreateWorkflowResponse
  baseUrl : String
  nowIso : String

/-- Zod's serialized issue list in `` `Invalid arguments: ${parsed.error.message}` ``;
the zod-internal JSON rendering of the issues is abstracted by this constant. -/
def zodErrorText : String := "[zod issues]"

/-- `safeParse` against `toolSchemas.add_node`: requires string `type` and
`name`, numeric `typeVersion`, and an optional `parameters` record; the
schema declares no `credentials` field and `toolImplementations.add_node`
passes none. -/
def parseAddNodeArgs (args : JValue) : Option AddNodeInput :=
  match args with
  | .obj _ =>
    match args.getField "type", args.getField "typeVersion", args.getField "name" with
    | some (.str t), some (.num tv), some (.str n) =>
      match args.getField "parameters" with
      | some (.obj fields) =>
        some { type := t, typeVersion := tv, name := n,
               parameters := some fields, credentials := none }
      | some _ => none
      | none =>
        some { type := t, typeVersion := tv, name := n,
               parameters := none, credentials := none }
    | _, _, _ => none
  | _ => none

/-- `safeParse` of a numeric field with zod `.default(d)`: absent means the
default, present non-numeric fails. -/
def parseNumWithDefault (args : JValue) (key : String) (d : Int) : Option Int :=
  match args.getField key with
  | some (.num n) => some n
  | some _ => none
  | none => some d

/-- `safeParse` against `toolSchemas.connect_nodes`: string endpoints and
numeric `sourceOutput` / `targetInput` defaulting to 0; the schema declares
no `connectionType` field, so `connectNodes` later defaults it to `'main'`. -/
def parseConnectNodesArgs (args : JValue) : Option ConnectNodesInput :=
  match args with
  | .obj _ =>
    match args.getField "sourceNode", args.getField "targetNode" with
    | some (.str s), some (.str t) =>
      match parseNumWithDefault args "sourceOutput" 0,
          parseNumWithDefault args "targetInput" 0 with
      | some so, some ti =>
        some { sourceNode := s, targetNode := t, sourceOutput := some so,
               targetInput := some ti, connectionType := none }
      | _, _ => none
    | _, _ => none
  | _ => none

/-- `safeParse` of a schema with a single required string field. -/
def parseStringField (args : JValue) (key : String) : Option String :=
  match args with
  | .obj _ =>
    match args.getField key with
    | some (.str s) => some s
    | _ => none
  | _ => none

/-- `safeParse` against `toolSchemas.update_node_parameters`: string
`nodeName` and a required `parameters` record. -/
def parseUpdateParamsArgs (args : JValue) :
    Option (String × List (String × JValue)) :=
  match args with
  | .obj _ =>
    match args.getField "nodeName", args.getField "parameters" with
    | some (.str n), some (.obj fields) => some (n, fields)
    | _, _ => none
  | _ => none

/-- `toolImplementations.add_node`: delegates to `addNode`, catching the
duplicate-name error. -/
def addNodeTool (a : AddNodeInput) (st : WState) : ToolResult × WState :=
  match addNodeE a st with
  | (.ok node, st') =>
    ({ success := true
       message := "Added node \"" ++ a.name ++ "\" (" ++ a.type ++ ") with ID: " ++ node.id
       data := some (.node node) }, st')
  | (.error e, st') =>
    ({ success := false, message := "Error adding node: " ++ e, data := none }, st')

/-- `toolImplementations.connect_nodes`. -/
def connectNodesTool (a : ConnectNodesInput) (st : WState) : ToolResult × WState :=
  match connectNodesE a st with
  | (.ok _, st') =>
    ({ success := true
       message := "Connected \"" ++ a.sourceNode ++ "\" -> \"" ++ a.targetNode ++ "\""
       data := none }, st')
  | (.error e, st') =>
    ({ success := false, message := "Error connecting nodes: " ++ e, data := none }, st')

/-- `toolImplementations.get_current_workflow` (the delegate `toN8nWorkflow`
is total, so the surrounding catch is unreachable). -/
def getCurrentWorkflowTool (name : String) (st : WState) : ToolResult × WState :=
  ({ success := true
     message := "Current workflow state:"
     data := some (.workflow (toN8nWorkflow name st)) }, st)

/-- `toolImplementations.update_node_parameters`. -/
def updateNodeParametersTool (nodeName : String) (params : List (String × JValue))
    (st : WState) : ToolResult × WState :=
  match updateNodeParametersE nodeName params st with
  | (.ok _, st') =>
    ({ success := true
       message := "Updated parameters for node \"" ++ nodeName ++ "\""
       data := none }, st')
  | (.error e, st') =>
    ({ success := false, message := "Error updating parameters: " ++ e, data := none }, st')

/-- `toolImplementations.validate_workflow_with_n8n`: short-circuits with a
structured not-configured failure when no client was initialized; otherwise
maps the (never-throwing) `validateByCreation` outcome to a structured
result. -/
def validateWithN8nTool (env : ToolEnv) (_workflowName : String) (st : WState) :
    ToolResult × WState :=
  if env.n8nConfigured then
    if env.validateOutcome.valid then
      ({ success := true
         message := "Workflow validated successfully against n8n API."
         data := some (.validatedAt env.nowIso) }, st)
    else
      ({ success := false
         message := "n8n validation failed: " ++
           (match env.validateOutcome.error with
            | some e => e.message
            | none => "Unknown error")
         data := some (.apiFailure (env.validateOutcome.error.map (fun e => e.errorType))
           (env.validateOutcome.error.map (fun e => e.recoverable))) }, st)
  else
    ({ success := false
       message := "n8n API is not configured. Set N8N_API_KEY environment variable " ++
         "to enable n8n validation."
       data := none }, st)

/-- `toolImplementations.create_workflow_in_n8n`: not-configured
short-circuit, then `createWorkflow` with its thrown errors caught and
converted (`error instanceof Error ? error.message : 'Unknown error'`). -/
def createInN8nTool (env : ToolEnv) (_workflowName : String) (st : WState) :
    ToolResult × WState :=
  if env.n8nConfigured then
    match env.createOutcome with
    | .ok resp =>
      ({ success := true
         message := "Workflow created successfully in n8n."
         data := some (.created resp.id resp.name
           (env.baseUrl ++ "/workflow/" ++ resp.id) resp.active) }, st)
    | .error e =>
      ({ success := false
         message := "Error creating workflow in n8n: " ++ (e.getD "Unknown error")
         data := none }, st)
  else
    ({ success := false
       message := "n8n API is not configured. Set N8N_API_KEY environment variable " ++
         "to enable n8n integration."
       data := none }, st)

/-- The names with an entry in `toolSchemas`. -/
def knownToolNames : List String :=
  ["add_node", "connect_nodes", "get_current_workflow", "update_node_parameters",
   "validate_workflow_with_n8n", "create_workflow_in_n8n"]

/-- The `asyncTools` set of `src/tools/index.ts`. -/
def asyncToolNames : List String :=
  ["validate_workflow_with_n8n", "create_workflow_in_n8n"]

/-- Schema lookup, argument validation and dispatch shared by `executeTool`
and `executeToolAsync`: unknown names and schema mismatches produce
structured failures, and every delegate error surfaces as
`{success:false, message}`. -/
def dispatchTool (env : ToolEnv) (toolName : String) (args : JValue) (st : WState) :
    ToolResult × WState :=
  if toolName = "add_node" then
    match parseAddNodeArgs args with
    | some a => addNodeTool a st
    | none => ({ success := false, message := "Invalid arguments: " ++ zodErrorText,
                 data := none }, st)
  else if toolName = "connect_nodes" then
    match parseConnectNodesArgs args with
    | some a => connectNodesTool a st
    | none => ({ success := false, message := "Invalid arguments: " ++ zodErrorText,
                 data := none }, st)
  else if toolName = "get_current_workflow" then
    match parseStringField args "name" with
    | some n => getCurrentWorkflowTool n st
    | none => ({ success := false, message := "Invalid arguments: " ++ zodErrorText,
                 data := none }, st)
  else if toolName = "update_node_parameters" then
    match parseUpdateParamsArgs args with
    | some a => updateNodeParametersTool a.1 a.2 st
    | none => ({ success := false, message := "Invalid arguments: " ++ zodErrorText,
                 data := none }, st)
  else if toolName = "validate_workflow_with_n8n" then
    match parseStringField args "workflowName" with
    | some n => validateWithN8nTool env n st
    | none => ({ success := false, message := "Invalid arguments: " ++ zodErrorText,
                 data := none }, st)
  else if toolName = "create_workflow_in_n8n" then
    match parseStringField args "workflowName" with
    | some n => createInN8nTool env n st
    | none => ({ success := false, message := "Invalid arguments: " ++ zodErrorText,
                 data := none }, st)
  else
    ({ success := false, message := "Unknown tool: " ++ toolName, data := none }, st)

/-- `executeToolAsync`: validate-and-dispatch for every tool. -/
def executeToolAsync (env : ToolEnv) (toolName : String) (args : JValue)
    (st : WState) : ToolResult × WState :=
  dispatchTool env toolName args st

/-- `executeTool` (sync): identical to `executeToolAsync` except that the
two async tools are redirected with a structured failure. -/
def executeTool (env : ToolEnv) (toolName : String) (args : JValue)
    (st : WState) : ToolResult × WState :=
  if toolName ∈ asyncToolNames then
    ({ success := false
       message := "Tool " ++ toolName ++ " is async. Use executeToolAsync instead."
       data := none }, st)
  else dispatchTool env toolName args st

/-- Success characterization of a tool call: the tool name is known, the
arguments satisfy the declared schema, and the delegated operation succeeds
(for the two n8n tools: the client is configured and the external call
succeeds). -/
def toolCallSucceeds (env : ToolEnv) (toolName : String) (args : JValue)
    (st : WState) : Prop :=
  if toolName = "add_node" then
    ∃ a, parseAddNodeArgs args = some a ∧ ∃ node, (addNodeE a st).1 = .ok node
  else if toolName = "connect_nodes" then
    ∃ a, parseConnectNodesArgs args = some a ∧ (connectNodesE a st).1 = .ok ()
  else if toolName = "get_current_workflow" then
    ∃ n, parseStringField args "name" = some n
  else if toolName = "update_node_parameters" then
    ∃ a, parseUpdateParamsArgs args = some a ∧
      (updateNodeParametersE a.1 a.2 st).1 = .ok ()
  else if toolName = "validate_workflow_with_n8n" then
    (∃ n, parseStringField args "workflowName" = some n) ∧
      env.n8nConfigured = true ∧ env.validateOutcome.valid = true
  else if toolName = "create_workflow_in_n8n" then
    (∃ n, parseStringField args "workflowName" = some n) ∧
      env.n8nConfigured = true ∧ ∃ r, env.createOutcome = .ok r
  else False

/-- A sequence of `addNode` calls against a fresh manager (failed calls leave
the state unchanged, mirroring the thrown duplicate-name error). -/
def addSeq (inputs : List AddNodeInput) : WState :=
  inputs.foldl (fun s a => (addNodeE a s).2) initState

/-! ## Concrete fixtures used by witnesses and counterexamples -/

/-- A minimal `addNode` input. -/
def exAdd (nm ty : String) : AddNodeInput :=
  { type := ty, typeVersion := 1, name := nm, parameters := none, credentials := none }

/-- State after adding nodes `A` (a webhook) and `B` (an action). -/
def exStAB : WState :=
  (addNodeE (exAdd "B" "n8n-nodes-base.slack")
    ((addNodeE (exAdd "A" "n8n-nodes-base.webhook") initState).2)).2

/-- `connectNodes` input `A → tgt` at the given output slot. -/
def exConn (tgt : String) (so : Int) : ConnectNodesInput :=
  { sourceNode := "A", targetNode := tgt, sourceOutput := some so,
    targetInput := some 0, connectionType := none }

/-- `exStAB` with the edge `A →(output -2)→ B`. -/
def exStNeg : WState := (connectNodesE (exConn "B" (-2)) exStAB).2

/-- The internal edge `A →(output -2)→ B` of `exStNeg`. -/
def exEdgeNeg : InternalConnection :=
  { target := "B", sourceOutput := -2, targetInput := 0, connectionType := .main }

/-- Three nodes `A`, `B`, `C` with edges `A →(0)→ B` and `A →(1)→ C`. -/
def exStOut01 : WState :=
  (connectNodesE (exConn "C" 1)
    ((addNodeE (exAdd "C" "n8n-nodes-base.set")
      ((connectNodesE (exConn "B" 0) exStAB).2)).2)).2

/-- The edge list of source `A` in `exStOut01`. -/
def exEdges01 : List InternalConnection :=
  [{ target := "B", sourceOutput := 0, targetInput := 0, connectionType := .main },
   { target := "C", sourceOutput := 1, targetInput := 0, connectionType := .main }]

/-- `exStAB` after removing `A` and then adding `C`: the grid slot freed by
the removal is handed out again. -/
def exStRem : WState :=
  (addNodeE (exAdd "C" "n8n-nodes-base.set") ((removeNode "A" exStAB).2)).2

/-- A single-node workflow with no trigger-like node. -/
def exNoTriggerWorkflow : N8nWorkflow :=
  toN8nWorkflow "W" ((addNodeE (exAdd "Only" "n8n-nodes-base.set") initState).2)

/-- A placeholder node value (for list lookups with a default). -/
def dummyNode : N8nNode :=
  { id := "", name := "", type := "", typeVersion := 0, position := (0, 0),
    parameters := [], credentials := none }

/-- A tool environment with no n8n client configured. -/
def exEnv : ToolEnv :=
  { n8nConfigured := false
    validateOutcome := { valid := false, error := none }
    createOutcome := .error none
    baseUrl := "http://localhost:5678"
    nowIso := "2026-01-01T00:00:00.000Z" }

/-! ## Theorems -/

/-- Helper: concatenating to a string starting with `"Node \""` never yields
the no-trigger warning (their first characters differ). -/
theorem orphanWarning_ne_noTriggerWarning (s : String) :
    orphanWarning s ≠ noTriggerWarning := by
  intro h
  have hd := congrArg (fun x => x.data.head?) h
  have happ : ∀ a b : String, (a ++ b).data = a.data ++ b.data := fun ⟨_⟩ ⟨_⟩ => rfl
  simp only [orphanWarning, noTriggerWarning, happ] at hd
  simp at hd

/-- C8: any validation-error string whose lowercased form contains
`"credential"` is classified non-recoverable by `analyzeValidationError`,
whatever else the string contains: the credential pattern group is tested
first and immediately returns `recoverable := false`. -/
theorem analyzeValidationError_credential_nonrecoverable (s : String)
    (h : strIncludes (strToLower s) "credential" = true) :
    (analyzeValidationError s).recoverable = false := by
  simp [analyzeValidationError, h]

/-- Witness for C8 at a message that also matches every recoverable pattern
(`required`, `missing`, `parameter`, `invalid`, `connection`, `not found`). -/
theorem analyzeValidationError_credential_nonrecoverable_witness :
    strIncludes (strToLower
      "Missing required Credential parameter: invalid connection not found")
      "credential" = true ∧
    (analyzeValidationError
      "Missing required Credential parameter: invalid connection not found").recoverable
      = false :=
  ⟨by decide, analyzeValidationError_credential_nonrecoverable _ (by decide)⟩

/-- C1 counterexample: a recoverable validation error that exhausts the retry
budget (third validation attempt with the default budget of 3) makes
`buildWorkflow` fail with `requiresHumanInput = false`, not `true`: the
failure result sets `requiresHumanInput := !analysis.recoverable`. -/
theorem finalizeOnInvalid_budget_exhausted_cex :
    finalizeOnInvalid ["Node is missing required parameter"] 2
        defaultMaxValidationRetries =
      FinalizeOutcome.failure false
        (some "Add the missing required parameter using update_node_parameters.") := by
  decide

/-- C1 (amended): whenever the finalize path does not retry — the classifier
says non-recoverable, or the incremented attempt counter reaches the retry
budget — `buildWorkflow` fails carrying the classifier's suggested action as
the human-input reason, with `requiresHumanInput` true exactly when the
error was classified non-recoverable. -/
theorem finalizeOnInvalid_failure_flag (errors : List String)
    (validationAttempts maxRetries : Nat)
    (h : ¬ ((analyzeValidationError (String.intercalate "\n" errors)).recoverable = true ∧
      validationAttempts + 1 < maxRetries)) :
    finalizeOnInvalid errors validationAttempts maxRetries =
      FinalizeOutcome.failure
        (!(analyzeValidationError (String.intercalate "\n" errors)).recoverable)
        (analyzeValidationError (String.intercalate "\n" errors)).suggestedAction := by
  simp only [finalizeOnInvalid]
  rw [if_neg h]

/-- Witness for C1 (amended): a credential error on the first attempt fails
immediately with `requiresHumanInput = true` and the credential suggestion. -/
theorem finalizeOnInvalid_failure_flag_witness :
    finalizeOnInvalid ["Slack credential is not configured"] 0 3 =
      FinalizeOutcome.failure true
        (some ("Credentials need to be configured in n8n. " ++
          "Please set up the required credentials in your n8n instance.")) := by
  rw [finalizeOnInvalid_failure_flag ["Slack credential is not configured"] 0 3 (by decide)]
  decide

/-- C6: `validateWorkflow` is valid exactly when its error list is empty
(warnings never affect validity), and a failing structural schema phase
short-circuits: the errors are exactly the schema violations and no
semantic warnings are produced. -/
theorem validateWorkflow_valid_iff (w : N8nWorkflow) :
    ((validateWorkflow w).valid = true ↔ (validateWorkflow w).errors = []) ∧
    (schemaIssues w ≠ [] →
      (validateWorkflow w).errors = schemaIssues w ∧
        (validateWorkflow w).warnings = []) := by
  cases hx : schemaIssues w with
  | nil =>
    refine ⟨?_, fun hne => absurd rfl hne⟩
    simp [validateWorkflow, hx, List.isEmpty_iff]
  | cons a l =>
    refine ⟨?_, fun _ => ?_⟩ <;> simp [validateWorkflow, hx]

/-- Witness for C6: the empty workflow has schema violations, which are
returned verbatim with no warnings and `valid = false`. -/
theorem validateWorkflow_valid_iff_witness :
    schemaIssues (toN8nWorkflow "W" initState) ≠ [] ∧
    (validateWorkflow (toN8nWorkflow "W" initState)).errors =
      schemaIssues (toN8nWorkflow "W" initState) :=
  ⟨by decide, ((validateWorkflow_valid_iff (toN8nWorkflow "W" initState)).2 (by decide)).1⟩

/-- C10: the structural schema requires at least one node
(`z.array(n8nNodeSchema).min(1)`), so every zero-node workflow — in
particular the serialization of a fresh or reset state manager — is invalid
with the "Workflow must have at least one node" error. -/
theorem validateWorkflow_empty_nodes (w : N8nWorkflow) (h : w.nodes = []) :
    (validateWorkflow w).valid = false ∧
    "nodes: Workflow must have at least one node" ∈ (validateWorkflow w).errors := by
  have hmem : "nodes: Workflow must have at least one node" ∈ schemaIssues w := by
    simp [schemaIssues, h, withIndices]
  have hne : schemaIssues w ≠ [] := by
    intro hx
    rw [hx] at hmem
    exact absurd hmem (List.not_mem_nil _)
  have hie : (schemaIssues w).isEmpty = false := by
    cases hx : schemaIssues w with
    | nil => exact absurd hx hne
    | cons a l => rfl
  constructor
  · simp [validateWorkflow, hie]
  · simpa [validateWorkflow, hie] using hmem

/-- Witness for C10 at the serialization of a fresh state manager. -/
theorem validateWorkflow_empty_nodes_witness :
    (toN8nWorkflow "My Workflow" initState).nodes = [] ∧
    (validateWorkflow (toN8nWorkflow "My Workflow" initState)).valid = false ∧
    "nodes: Workflow must have at least one node" ∈
      (validateWorkflow (toN8nWorkflow "My Workflow" initState)).errors :=
  ⟨rfl, (validateWorkflow_empty_nodes _ rfl).1, (validateWorkflow_empty_nodes _ rfl).2⟩

/-- C3: an `addNode` call whose name duplicates an existing node fails with
the duplicate-name error and leaves the whole state (node map, connection
map, ID counter) unchanged, so the next successful `addNode` still receives
the fresh monotonic ID `node_<counter+1>`. -/
theorem addNode_duplicate_no_mutation (st : WState) (a : AddNodeInput)
    (h : assocHas st.nodes a.name = true) :
    addNodeE a st =
      (.error ("Node with name \"" ++ a.name ++ "\" already exists"), st) ∧
    ∀ b : AddNodeInput, assocHas st.nodes b.name = false →
      ∃ node st2, addNodeE b (addNodeE a st).2 = (.ok node, st2) ∧
        node.id = "node_" ++ toString (st.nodeCounter + 1) := by
  have h1 : addNodeE a st =
      (.error ("Node with name \"" ++ a.name ++ "\" already exists"), st) := by
    simp [addNodeE, h]
  refine ⟨h1, fun b hb => ?_⟩
  have h2 : (addNodeE a st).2 = st := by rw [h1]
  rw [h2]
  have hb' : ¬ assocHas st.nodes b.name = true := by simp [hb]
  simp only [addNodeE, if_neg hb']
  exact ⟨_, _, rfl, rfl⟩

/-- Witness for C3: adding a second `A` to the two-node fixture fails, and a
following fresh add still gets `node_3`. -/
theorem addNode_duplicate_no_mutation_witness :
    assocHas exStAB.nodes "A" = true ∧
    (addNodeE (exAdd "A" "n8n-nodes-base.set") exStAB).2 = exStAB ∧
    ∃ node st2,
      addNodeE (exAdd "C" "n8n-nodes-base.set")
          ((addNodeE (exAdd "A" "n8n-nodes-base.set") exStAB).2) =
        (.ok node, st2) ∧ node.id = "node_3" := by
  have h := addNode_duplicate_no_mutation exStAB (exAdd "A" "n8n-nodes-base.set")
    (by decide)
  refine ⟨by decide, by rw [h.1], ?_⟩
  obtain ⟨node, st2, he, hid⟩ := h.2 (exAdd "C" "n8n-nodes-base.set") (by decide)
  exact ⟨node, st2, he, by rw [hid]; decide⟩

/-- Helper: the grid layout function is injective, so distinct grid indices
give distinct positions. -/
theorem gridPos_injective {a b : Nat} (h : gridPos a = gridPos b) : a = b := by
  have h1 := congrArg Prod.fst h
  have h2 := congrArg Prod.snd h
  simp only [gridPos] at h1 h2
  omega

/-- Helper: along any sequence of `addNode` calls (successful or failed, no
removals), the j-th node of the map always sits at `gridPos j`. -/
theorem addSeq_position_invariant (inputs : List AddNodeInput) (acc : WState)
    (hacc : ∀ j (hj : j < acc.nodes.length), acc.nodes[j].2.position = gridPos j) :
    ∀ j (hj : j < (inputs.foldl (fun s a => (addNodeE a s).2) acc).nodes.length),
      ((inputs.foldl (fun s a => (addNodeE a s).2) acc).nodes[j]).2.position = gridPos j := by
  induction inputs generalizing acc with
  | nil => simpa using hacc
  | cons a rest ih =>
    intro j hj
    simp only [List.foldl_cons] at hj ⊢
    refine ih ((addNodeE a acc).2) ?_ j hj
    intro k hk
    by_cases hd : assocHas acc.nodes a.name = true
    · simp only [addNodeE, if_pos hd] at hk ⊢
      exact hacc k hk
    · simp only [addNodeE, if_neg hd] at hk ⊢
      rcases Nat.lt_or_ge k acc.nodes.length with hlt | hge
      · rw [List.getElem_append_left hlt]
        exact hacc k hlt
      · have hk' : k = acc.nodes.length := by
          simp only [List.length_append, List.length_cons, List.length_nil] at hk
          omega
        subst hk'
        rw [List.getElem_append_right (Nat.le_refl _)]
        simp

/-- C2 (amended): along any pure sequence of `addNode` calls (no removals)
the j-th present node has position `gridPos j` and no two present nodes
share a position; in general a successful `addNode` places the new node at
`gridPos` of the *current node count*, which equals the number of prior
successful adds only when nothing was removed. -/
theorem grid_layout_add_only (inputs : List AddNodeInput) (j k : Nat)
    (hj : j < (addSeq inputs).nodes.length) (hk : k < (addSeq inputs).nodes.length) :
    (addSeq inputs).nodes[j].2.position = gridPos j ∧
    ((addSeq inputs).nodes[j].2.position = (addSeq inputs).nodes[k].2.position → j = k) ∧
    ∀ (st : WState) (a : AddNodeInput) (node : N8nNode) (st2 : WState),
      addNodeE a st = (.ok node, st2) → node.position = gridPos st.nodes.length := by
  have hpos := addSeq_position_invariant inputs initState
    (by intro j hj; simp [initState] at hj)
  refine ⟨hpos j hj, fun he => ?_, ?_⟩
  · exact gridPos_injective ((hpos j hj).symm.trans (he.trans (hpos k hk)))
  · intro st a node st2 hadd
    by_cases hd : assocHas st.nodes a.name = true
    · simp [addNodeE, hd] at hadd
    · simp only [addNodeE, if_neg hd, Prod.mk.injEq, Except.ok.injEq] at hadd
      rw [← hadd.1]

/-- Witness for C2 (amended) on three distinct adds: the third node sits at
`gridPos 2` and differs in position from the second. -/
theorem grid_layout_add_only_witness :
    2 < (addSeq [exAdd "A" "n8n-nodes-base.webhook", exAdd "B" "n8n-nodes-base.slack",
        exAdd "C" "n8n-nodes-base.set"]).nodes.length ∧
    ((addSeq [exAdd "A" "n8n-nodes-base.webhook", exAdd "B" "n8n-nodes-base.slack",
        exAdd "C" "n8n-nodes-base.set"]).nodes.getD 2 ("", dummyNode)).2.position =
      gridPos 2 := by
  have hlen : 2 < (addSeq [exAdd "A" "n8n-nodes-base.webhook",
      exAdd "B" "n8n-nodes-base.slack", exAdd "C" "n8n-nodes-base.set"]).nodes.length := by
    decide
  have h := (grid_layout_add_only [exAdd "A" "n8n-nodes-base.webhook",
    exAdd "B" "n8n-nodes-base.slack", exAdd "C" "n8n-nodes-base.set"] 2 2 hlen hlen).1
  refine ⟨hlen, ?_⟩
  rw [List.getD_eq_getElem _ _ hlen]
  exact h

/-- C2 counterexample: add `A`, add `B`, remove `A`, add `C`.  `C` is the
2nd (0-indexed) successfully added node, but its position is `(350, 100)` —
computed from the current node count 1 — rather than the claimed
`gridPos 2 = (600, 100)`, and it coincides with the position of the
simultaneously present node `B`. -/
theorem grid_position_removal_cex :
    exStRem.nodes.map (fun p => (p.1, p.2.position)) =
      [("B", ((350 : Int), (100 : Int))), ("C", ((350 : Int), (100 : Int)))] ∧
    gridPos 2 = ((600 : Int), (100 : Int)) :=
  ⟨by decide, by decide⟩

/-- C7: for structurally valid workflows the no-trigger warning appears
exactly when no node's type passes the trigger heuristic (lowercased type
contains "trigger" or "webhook", or ends with ".cron"), and the error list
is built solely from the duplicate-name, duplicate-ID and
referential-integrity checks, so a missing trigger alone never makes the
workflow invalid. -/
theorem noTrigger_warning_iff (w : N8nWorkflow) (h : schemaIssues w = []) :
    (noTriggerWarning ∈ (validateWorkflow w).warnings ↔
      w.nodes.any (fun n => isTriggerNode n.type) = false) ∧
    (validateWorkflow w).errors = dupNameErrors w ++ dupIdErrors w ++ connRefErrors w := by
  have hie : (schemaIssues w).isEmpty = true := by rw [h]; rfl
  have hnoorph : noTriggerWarning ∉ orphanWarnings w := by
    intro hm
    rcases List.mem_flatMap.1 hm with ⟨n, _, hmem2⟩
    split at hmem2
    · simp only [List.mem_singleton] at hmem2
      exact orphanWarning_ne_noTriggerWarning n.name hmem2.symm
    · simp at hmem2
  constructor
  · cases hany : w.nodes.any (fun n => isTriggerNode n.type) with
    | true => simp [validateWorkflow, hie, triggerWarnings, hany, hnoorph]
    | false => simp [validateWorkflow, hie, triggerWarnings, hany]
  · simp [validateWorkflow, hie]

/-- Witness for C7 at a structurally valid one-node workflow with no
trigger-like node. -/
theorem noTrigger_warning_iff_witness :
    schemaIssues exNoTriggerWorkflow = [] ∧
    noTriggerWarning ∈ (validateWorkflow exNoTriggerWorkflow).warnings :=
  ⟨by decide, (noTrigger_warning_iff exNoTriggerWorkflow (by decide)).1.mpr (by decide)⟩

/-- Helper: every target in a serialized output slot comes from an edge of
the source's internal edge list. -/
theorem mem_of_mem_buildMain {cs : List InternalConnection}
    {slot : List N8nConnectionTarget} (hs : slot ∈ buildMain cs)
    {t : N8nConnectionTarget} (ht : t ∈ slot) :
    ∃ c, c ∈ cs ∧ t.node = c.target := by
  unfold buildMain at hs
  rcases List.mem_map.1 hs with ⟨i, _, rfl⟩
  rcases List.mem_map.1 ht with ⟨c, hc, rfl⟩
  exact ⟨c, (List.mem_filter.1 hc).1, rfl⟩

/-- C4: removing an absent node returns `false` and leaves the state
untouched; removing a present node returns `true` and cascades: the
serialized workflow has no connections entry keyed by the removed name and
no target referencing it, and every remaining source entry has a non-empty
edge list (sources emptied by the pruning are deleted outright). -/
theorem removeNode_cascade (st : WState) (nm : String) :
    (assocHas st.nodes nm = false → removeNode nm st = (false, st)) ∧
    (assocHas st.nodes nm = true →
      (removeNode nm st).1 = true ∧
      (∀ wname p, p ∈ (toN8nWorkflow wname (removeNode nm st).2).connections →
        p.1 ≠ nm ∧ ∀ slot ∈ p.2.main, ∀ t ∈ slot, t.node ≠ nm) ∧
      (∀ q ∈ (removeNode nm st).2.connections, q.2 ≠ [])) := by
  constructor
  · intro h
    simp [removeNode, h]
  · intro h
    have hconn : ∀ q ∈ (removeNode nm st).2.connections,
        q.1 ≠ nm ∧ q.2 ≠ [] ∧ ∀ c ∈ q.2, c.target ≠ nm := by
      intro q hq
      simp only [removeNode, if_pos h] at hq
      rcases List.mem_filterMap.1 hq with ⟨p, hp, hsome⟩
      by_cases he : (p.2.filter (fun c => c.target != nm)).isEmpty = true
      · rw [if_pos he] at hsome
        exact absurd hsome (by simp)
      · rw [if_neg he] at hsome
        have hqeq := Option.some.inj hsome
        subst hqeq
        refine ⟨?_, ?_, ?_⟩
        · have := (List.mem_filter.1 hp).2
          simpa using this
        · intro hnil
          have hnil' : p.2.filter (fun c => c.target != nm) = [] := hnil
          rw [hnil'] at he
          exact he rfl
        · intro c hc
          have := (List.mem_filter.1 hc).2
          simpa using this
    refine ⟨by simp [removeNode, h], ?_, fun q hq => (hconn q hq).2.1⟩
    intro wname p hp
    simp only [toN8nWorkflow] at hp
    rcases List.mem_map.1 hp with ⟨q, hq, rfl⟩
    obtain ⟨hq1, _, hq3⟩ := hconn q hq
    refine ⟨hq1, fun slot hslot t ht => ?_⟩
    obtain ⟨c, hc, hteq⟩ := mem_of_mem_buildMain hslot ht
    rw [hteq]
    exact hq3 c hc

/-- Witness for C4: removing `C` from the two-edge fixture keeps `A → B`
only; removing the source `A` deletes the whole connections map. -/
theorem removeNode_cascade_witness :
    assocHas exStOut01.nodes "C" = true ∧
    (removeNode "C" exStOut01).1 = true ∧
    (toN8nWorkflow "W" (removeNode "C" exStOut01).2).connections.map
        (fun p => (p.1, p.2.main.map (fun slot => slot.map (fun c => c.node)))) =
      [("A", [["B"]])] ∧
    (removeNode "A" exStOut01).2.connections = [] :=
  ⟨by decide, ((removeNode_cascade exStOut01 "C").2 (by decide)).1, by decide, by decide⟩

/-- C5 counterexample: the reachable state with the single edge
`A →(output -2)→ B` serializes source `A` to an empty slot array (length 0),
while `max(sourceOutput) + 1 = -1`, so the claimed length equation fails for
sources whose edges all have `sourceOutput ≤ -2`. -/
theorem toN8nWorkflow_slot_length_cex :
    exStNeg.connections = [("A", [exEdgeNeg])] ∧
    (toN8nWorkflow "W" exStNeg).connections.map (fun p => (p.1, p.2.main.length)) =
      [("A", 0)] ∧
    maxOutputIndex [exEdgeNeg] + 1 = -1 :=
  ⟨by decide, by decide, by decide⟩

/-- C5 (amended): every source entry serializes to the slot array of length
`max(0, max(sourceOutput)+1)` whose slot `i` holds exactly the targets of
edges with `sourceOutput = i`, in insertion order (slots without edges are
empty); the length is `max(sourceOutput)+1` itself whenever that quantity
is non-negative, and edges with negative `sourceOutput` appear in no slot. -/
theorem toN8nWorkflow_slots (st : WState) (wname src : String)
    (cs : List InternalConnection) (hmem : (src, cs) ∈ st.connections) :
    (src, N8nNodeConnections.mk (buildMain cs)) ∈ (toN8nWorkflow wname st).connections ∧
    (buildMain cs).length = (maxOutputIndex cs + 1).toNat ∧
    ∀ i (hi : i < (buildMain cs).length),
      (buildMain cs)[i] =
        (cs.filter (fun c => c.sourceOutput == Int.ofNat i)).map (fun c =>
          { node := c.target, type := c.connectionType, index := c.targetInput }) := by
  refine ⟨List.mem_map.2 ⟨(src, cs), hmem, rfl⟩, by simp [buildMain], ?_⟩
  intro i hi
  simp only [buildMain, List.length_map, List.length_range] at hi
  simp [buildMain]

/-- Witness for C5 (amended) at the spec's example graph with edges
`(A,B,output=0)` and `(A,C,output=1)`. -/
theorem toN8nWorkflow_slots_witness :
    (("A", exEdges01) ∈ exStOut01.connections) ∧
    (buildMain exEdges01).length = 2 ∧
    (toN8nWorkflow "W" exStOut01).connections.map
        (fun p => (p.1, p.2.main.map (fun slot => slot.map (fun c => c.node)))) =
      [("A", [["B"], ["C"]])] := by
  refine ⟨by decide, ?_, by decide⟩
  rw [(toN8nWorkflow_slots exStOut01 "W" "A" exEdges01 (by decide)).2.1]
  decide

/-- Helper: success characterization of the shared validate-and-dispatch
path — a tool call reports `success = true` exactly when the name is known,
the arguments satisfy the tool's schema, and the delegated operation
succeeds. -/
theorem dispatch_success_iff (env : ToolEnv) (toolName : String) (args : JValue)
    (st : WState) :
    (dispatchTool env toolName args st).1.success = true ↔
      toolCallSucceeds env toolName args st := by
  by_cases h1 : toolName = "add_node"
  · subst h1
    simp only [dispatchTool, toolCallSucceeds]
    cases hp : parseAddNodeArgs args with
    | none => simp [hp]
    | some a =>
      simp only [hp, Option.some.injEq]
      cases he : addNodeE a st with
      | mk r st2 =>
        cases r with
        | ok node => simp [addNodeTool, he]
        | error e => simp [addNodeTool, he]
  · by_cases h2 : toolName = "connect_nodes"
    · subst h2
      simp only [dispatchTool, toolCallSucceeds]
      cases hp : parseConnectNodesArgs args with
      | none => simp [hp]
      | some a =>
        simp only [hp, Option.some.injEq]
        cases he : connectNodesE a st with
        | mk r st2 =>
          cases r with
          | ok u => simp [connectNodesTool, he]
          | error e => simp [connectNodesTool, he]
    · by_cases h3 : toolName = "get_current_workflow"
      · subst h3
        simp only [dispatchTool, toolCallSucceeds]
        cases hp : parseStringField args "name" with
        | none => simp [hp]
        | some n => simp [getCurrentWorkflowTool, hp]
      · by_cases h4 : toolName = "update_node_parameters"
        · subst h4
          simp only [dispatchTool, toolCallSucceeds]
          cases hp : parseUpdateParamsArgs args with
          | none => simp [hp]
          | some a =>
            simp only [hp, Option.some.injEq]
            cases he : updateNodeParametersE a.1 a.2 st with
            | mk r st2 =>
              cases r with
              | ok u => simp [updateNodeParametersTool, he]
              | error e => simp [updateNodeParametersTool, he]
        · by_cases h5 : toolName = "validate_workflow_with_n8n"
          · subst h5
            simp only [dispatchTool, toolCallSucceeds]
            cases hp : parseStringField args "workflowName" with
            | none => simp [hp]
            | some n =>
              cases hc : env.n8nConfigured with
              | false => simp [validateWithN8nTool, hc, hp]
              | true =>
                cases hv : env.validateOutcome.valid with
                | false => simp [validateWithN8nTool, hc, hv, hp]
                | true => simp [validateWithN8nTool, hc, hv, hp]
          · by_cases h6 : toolName = "create_workflow_in_n8n"
            · subst h6
              simp only [dispatchTool, toolCallSucceeds]
              cases hp : parseStringField args "workflowName" with
              | none => simp [hp]
              | some n =>
                cases hc : env.n8nConfigured with
                | false => simp [createInN8nTool, hc, hp]
                | true =>
                  cases hco : env.createOutcome with
                  | ok resp => simp [createInN8nTool, hc, hco, hp]
                  | error e => simp [createInN8nTool, hc, hco, hp]
            · simp [dispatchTool, toolCallSucceeds, h1, h2, h3, h4, h5, h6]

/-- C9: the tool surface never throws — `executeToolAsync` reports
`success = true` exactly when the name is known, the arguments satisfy the
declared schema, and the delegated operation (state-manager call, or n8n
call with a configured client) succeeds, so unknown tools, schema
mismatches, delegate errors and an unconfigured n8n client all surface as
structured `{success:false, message}` results; the sync `executeTool`
differs only by redirecting the two async tools with a structured failure. -/
theorem executeTool_structured (env : ToolEnv) (toolName : String) (args : JValue)
    (st : WState) :
    ((executeToolAsync env toolName args st).1.success = true ↔
      toolCallSucceeds env toolName args st) ∧
    (toolName ∉ knownToolNames →
      executeToolAsync env toolName args st =
        ({ success := false, message := "Unknown tool: " ++ toolName, data := none }, st)) ∧
    (toolName ∈ asyncToolNames →
      executeTool env toolName args st =
        ({ success := false
           message := "Tool " ++ toolName ++ " is async. Use executeToolAsync instead."
           data := none }, st)) ∧
    (toolName ∉ asyncToolNames →
      executeTool env toolName args st = executeToolAsync env toolName args st) := by
  refine ⟨dispatch_success_iff env toolName args st, ?_, ?_, ?_⟩
  · intro hn
    have h1 : ¬ toolName = "add_node" := fun e => hn (by rw [e]; decide)
    have h2 : ¬ toolName = "connect_nodes" := fun e => hn (by rw [e]; decide)
    have h3 : ¬ toolName = "get_current_workflow" := fun e => hn (by rw [e]; decide)
    have h4 : ¬ toolName = "update_node_parameters" := fun e => hn (by rw [e]; decide)
    have h5 : ¬ toolName = "validate_workflow_with_n8n" := fun e => hn (by rw [e]; decide)
    have h6 : ¬ toolName = "create_workflow_in_n8n" := fun e => hn (by rw [e]; decide)
    simp [executeToolAsync, dispatchTool, h1, h2, h3, h4, h5, h6]
  · intro hm
    simp [executeTool, hm]
  · intro hm
    simp [executeTool, executeToolAsync, hm]

/-- Witness for C9: an unknown tool and a known sync tool against the
unconfigured fixture environment. -/
theorem executeTool_structured_witness :
    ("bogus_tool" ∉ knownToolNames) ∧
    (executeToolAsync exEnv "bogus_tool" JValue.null initState).1.success = false ∧
    ("connect_nodes" ∉ asyncToolNames) ∧
    executeTool exEnv "connect_nodes" JValue.null initState =
      executeToolAsync exEnv "connect_nodes" JValue.null initState := by
  refine ⟨by decide, ?_, by decide,
    (executeTool_structured exEnv "connect_nodes" JValue.null initState).2.2.2 (by decide)⟩
  rw [(executeTool_structured exEnv "bogus_tool" JValue.null initState).2.1 (by decide)]

end Nodemation
